import Mathlib

/-!
Shallow embedding of the HitPaw photo-enhancement proxy (`src/server.js`).

The only non-trivial logic of the repository is the `/enhance-photo`
handler: it creates a remote enhancement job via `createEnhanceJob`,
then polls the job status up to `maxAttempts` times via
`queryEnhanceResult`, classifying each parsed response (application
error code, `COMPLETED`, `FAILED`/`ERROR`, or "still in progress") and
resolving to a success / failure / timeout HTTP response.

The embedding models the orchestrator as a pure function of the
upstream environment: the create-job HTTP response and the sequence of
status-query HTTP responses.  JavaScript truthiness (empty string,
`0`, `undefined` are falsy) is modelled explicitly, since the source
uses `!x`, `x || y` and `x && y` on such values throughout.
-/

namespace HitPaw

/-- JS truthiness of an optional string: `undefined` and `""` are falsy. -/
def jsTruthyStr : Option String → Bool
  | none => false
  | some s => s ≠ ""

/-- JS `a || b` on optional strings: keep `a` when truthy, else `b`. -/
def jsOr (a b : Option String) : Option String :=
  if jsTruthyStr a then a else b

/-- Rendering of an optional number in a JS template literal
(`undefined` prints as the string "undefined"). -/
def jsShowInt : Option Int → String
  | none => "undefined"
  | some c => toString c

/-- Rendering of an optional string in a JS template literal. -/
def jsShowStr : Option String → String
  | none => "undefined"
  | some s => s

/-- Parsed body of the create-job response, nested `data` object
(`data?.data?.job_id` in the source). -/
structure CreateData where
  job_id : Option String
deriving Repr, DecidableEq

/-- Parsed JSON body of the create-job upstream response:
`code`, `message`, nested `data`. -/
structure CreateBody where
  code : Option Int
  message : Option String
  data : Option CreateData
deriving Repr, DecidableEq

/-- The raw create-job HTTP response as the orchestrator sees it:
`resp.ok`, `resp.status`, the body text, and the result of
`JSON.parse` on that text (`none` = parse failure). -/
structure CreateResp where
  ok : Bool
  status : Nat
  text : String
  parsed : Option CreateBody
deriving Repr, DecidableEq

/-- The nested `data` object of a status-query response body, with the
field-name variants the source reads. -/
structure StatusData where
  status : Option String
  res_url : Option String
  enhanced_url : Option String
  result_url : Option String
  original_url : Option String
  error_message : Option String
  fail_reason : Option String
  detail : Option String
deriving Repr, DecidableEq

/-- Parsed JSON body of a status-query response. -/
structure StatusResp where
  code : Option Int
  message : Option String
  data : Option StatusData
deriving Repr, DecidableEq

/-- A successfully parsed status-query body.  `JSON.parse` does not
only return objects: a body text such as `0`, `false`, `""`, `5`,
`"x"`, `[...]` or `null` parses too.  Property access on a non-null
primitive (or an array) yields `undefined` without throwing, while
property access on `null` throws a TypeError; both behaviours matter
to the poll loop, so the parse result is split into three shapes. -/
inductive PollBody where
  /-- the body parsed to a JSON object, projected onto the fields the
  handler reads -/
  | obj (s : StatusResp) : PollBody
  /-- the body parsed to the JSON literal `null`: reading `.code` on
  it throws -/
  | nullBody : PollBody
  /-- the body parsed to a non-null, non-object value (number, string,
  boolean or array): every property read yields `undefined`;
  `truthy` is the value's JS truthiness and `serialized` its
  `JSON.stringify` image -/
  | prim (truthy : Bool) (serialized : String) : PollBody
deriving Repr, DecidableEq

/-- JS truthiness of a parsed body (`lastStatusResp ? ... : null` on
src/server.js line 159): objects are truthy, `null` is falsy, other
values carry their own truthiness. -/
def jsTruthyBody : PollBody → Bool
  | .obj _ => true
  | .nullBody => false
  | .prim t _ => t

/-- The raw status-query HTTP response as the orchestrator sees it. -/
structure QueryResp where
  ok : Bool
  status : Nat
  text : String
  parsed : Option PollBody
deriving Repr, DecidableEq

/-- `createEnhanceJob` (src/server.js lines 16-56): throws on non-2xx
HTTP, on a non-JSON body, on `data.code !== 200`, and on a missing
(falsy) `data?.data?.job_id`; otherwise returns the job id.  Thrown
errors are modelled as `Except.error` carrying the message. -/
def createEnhanceJob (r : CreateResp) : Except String String :=
  if r.ok = false then
    .error ("HitPaw create job http error: " ++ toString r.status ++ " - " ++ r.text)
  else
    match r.parsed with
    | none => .error ("HitPaw create job returned non-JSON: " ++ r.text.take 200)
    | some data =>
      if data.code ≠ some 200 then
        .error ("HitPaw create job failed: code=" ++ jsShowInt data.code
          ++ ", message=" ++ jsShowStr data.message)
      else
        let jobId := data.data.bind CreateData.job_id
        if jsTruthyStr jobId = false then
          .error ("HitPaw create job missing job_id. Response: " ++ r.text.take 300)
        else
          .ok (jobId.getD "")

/-- `queryEnhanceResult` (src/server.js lines 58-83): throws on
non-2xx HTTP and on a non-JSON body, otherwise returns the parsed
body. -/
def queryEnhanceResult (r : QueryResp) : Except String PollBody :=
  if r.ok = false then
    .error ("HitPaw query status http error: " ++ toString r.status ++ " - " ++ r.text)
  else
    match r.parsed with
    | none => .error ("HitPaw query status returned non-JSON: " ++ r.text.take 200)
    | some b => .ok b

/-- The guard `statusResp.code && statusResp.code !== 200`
(src/server.js line 109): the code field is truthy (present and
non-zero) and distinct from 200. -/
def codeErr (s : StatusResp) : Bool :=
  match s.code with
  | none => false
  | some c => c ≠ 0 && c ≠ 200

/-- `statusResp?.data?.status` (src/server.js line 113). -/
def statusOf (s : StatusResp) : Option String :=
  s.data.bind StatusData.status

/-- A status value that does not end the loop: anything other than
COMPLETED, FAILED, ERROR (src/server.js lines 118, 141, 152). -/
def nonTerminal (s : StatusResp) : Bool :=
  statusOf s != some "COMPLETED"
    && (statusOf s != some "FAILED" && statusOf s != some "ERROR")

/-- A parsed body on which the loop iteration neither returns nor
throws: an object body passing the code check with a non-terminal
status, or a non-null primitive (all its property reads are
`undefined`, so the code check is falsy and the status non-terminal).
A `null` body throws at the `statusResp.code` read on line 109. -/
def bodyContinues : PollBody → Bool
  | .obj s => !codeErr s && nonTerminal s
  | .nullBody => false
  | .prim _ _ => true

/-- One poll response that makes the loop continue to the next
iteration: HTTP ok, JSON body, and a body the iteration passes
through. -/
def continuesPolling (q : QueryResp) : Bool :=
  q.ok &&
    match q.parsed with
    | none => false
    | some b => bodyContinues b

/-- The detail extraction of the FAILED/ERROR branch
(src/server.js lines 142-147), a JS `||` chain over the candidate
fields with the literal default as last operand. -/
def failDetail (s : StatusResp) (d : StatusData) : String :=
  let chain := jsOr d.error_message (jsOr d.fail_reason (jsOr d.detail s.message))
  if jsTruthyStr chain then chain.getD "" else "HitPaw task failed"

/-- JSON string quoting as used by the serializer model. -/
def quoteStr (s : String) : String := "\"" ++ s ++ "\""

/-- One optional string field of a JSON object; `undefined` fields are
omitted, as `JSON.stringify` does. -/
def fieldStr (k : String) (v : Option String) : List String :=
  match v with
  | none => []
  | some s => [quoteStr k ++ ":" ++ quoteStr s]

/-- One optional numeric field of a JSON object. -/
def fieldInt (k : String) (v : Option Int) : List String :=
  match v with
  | none => []
  | some c => [quoteStr k ++ ":" ++ toString c]

/-- Model of `JSON.stringify` on the nested status `data` object. -/
def serializeStatusData (d : StatusData) : String :=
  "\x7b" ++ String.intercalate ","
    (fieldStr "status" d.status ++ fieldStr "res_url" d.res_url
      ++ fieldStr "enhanced_url" d.enhanced_url ++ fieldStr "result_url" d.result_url
      ++ fieldStr "original_url" d.original_url ++ fieldStr "error_message" d.error_message
      ++ fieldStr "fail_reason" d.fail_reason ++ fieldStr "detail" d.detail) ++ "\x7d"

/-- Model of `JSON.stringify` on a parsed status response. -/
def serializeStatusResp (s : StatusResp) : String :=
  "\x7b" ++ String.intercalate ","
    (fieldInt "code" s.code ++ fieldStr "message" s.message
      ++ (match s.data with
          | none => []
          | some d => [quoteStr "data" ++ ":" ++ serializeStatusData d])) ++ "\x7d"

/-- Model of `JSON.stringify` on an arbitrary parsed body: a primitive
carries its own serialization. -/
def serializeBody : PollBody → String
  | .obj s => serializeStatusResp s
  | .nullBody => "null"
  | .prim _ ser => ser

/-- The `last` field of the 504 timeout response (src/server.js
line 159): `lastStatusResp ? JSON.stringify(lastStatusResp).slice(0, 800)
: null`.  The initial `null` and a falsy parsed body both take the
`null` branch. -/
def lastDiag : Option PollBody → Option String
  | none => none
  | some b => if jsTruthyBody b then some ((serializeBody b).take 800) else none

/-- Modelled from the spec (routine plumbing, §1): the message of the
TypeError thrown by reading `.code` on a `null` body at line 109; the
exact wording is engine-defined (this is V8's). -/
def nullReadCodeMessage : String :=
  "Cannot read properties of null (reading 'code')"

/-- Terminal outcome of one `/enhance-photo` request, one constructor
per distinct `res.status(...).json(...)` site in the handler. -/
inductive EnhanceResult where
  /-- 400 `image_url is required` (line 90). -/
  | inputError : EnhanceResult
  /-- 500 `HITPAW_API_KEY not configured on server` (line 91). -/
  | configError : EnhanceResult
  /-- 200 success body with job_id, status, enhanced_url, original_url
  (lines 129-137). -/
  | success (job_id status enhanced_url original_url : String) : EnhanceResult
  /-- 504 timeout body with job_id and the bounded serialization of the
  last snapshot, or `null` when none (lines 156-160). -/
  | timeout (job_id : String) (last : Option String) : EnhanceResult
  /-- 502 catch-all for thrown errors (lines 161-165). -/
  | upstream (message : String) : EnhanceResult
deriving Repr, DecidableEq

/-- Inbound request body: only `image_url` is read by the handler. -/
structure EnhanceRequest where
  image_url : Option String
deriving Repr, DecidableEq

/-- `maxAttempts` (src/server.js line 97). -/
def maxAttempts : Nat := 20

/-- `intervalMs` (src/server.js line 98). -/
def intervalMs : Nat := 5000

/-- The upstream environment of one request: the create-job response
and the status-query response for each poll index. -/
structure Upstream where
  create : CreateResp
  polls : Nat → QueryResp

/-- Terminal result of a run together with how many upstream calls of
each kind the orchestrator issued. -/
structure RunOutcome where
  result : EnhanceResult
  createCalls : Nat
  queryCalls : Nat
deriving Repr, DecidableEq

/-- Outcome of one iteration of the poll loop body: either a terminal
result (a `return` or a `throw` in the source), or "keep waiting"
carrying the parsed response that became `lastStatusResp`. -/
inductive StepOut where
  | done (r : EnhanceResult) : StepOut
  | again (b : PollBody) : StepOut
deriving Repr, DecidableEq

/-- The body of one poll-loop iteration (src/server.js lines 105-152)
applied to the status-query response `q`: query, code check,
COMPLETED branch, FAILED/ERROR branch, otherwise continue.  A `null`
body throws at the `statusResp.code` read; a non-null primitive body
sails through every check (all its property reads are `undefined`)
and the loop keeps waiting with it as the stored snapshot. -/
def pollStep (jobId imageUrl : String) (q : QueryResp) : StepOut :=
  match queryEnhanceResult q with
  | .error e => .done (.upstream e)
  | .ok b =>
    match b with
    | .nullBody => .done (.upstream nullReadCodeMessage)
    | .prim t ser =>
      -- code is undefined (falsy), status is undefined: keep waiting
      .again (.prim t ser)
    | .obj s =>
      if codeErr s then
        .done (.upstream ("HitPaw status api failed: code=" ++ jsShowInt s.code
          ++ ", message=" ++ jsShowStr s.message))
      else
        match s.data with
        | none =>
          -- status is undefined: neither COMPLETED nor FAILED/ERROR, keep waiting
          .again (.obj s)
        | some d =>
          if d.status = some "COMPLETED" then
            let enhancedUrl := jsOr d.res_url (jsOr d.enhanced_url d.result_url)
            let originalUrl := jsOr d.original_url (some imageUrl)
            if jsTruthyStr enhancedUrl then
              .done (.success jobId (d.status.getD "") (enhancedUrl.getD "") (originalUrl.getD ""))
            else
              .done (.upstream ("COMPLETED but missing enhanced url. data="
                ++ (serializeStatusData d).take 300))
          else if d.status = some "FAILED" || d.status = some "ERROR" then
            .done (.upstream ("HitPaw task " ++ jsShowStr d.status ++ ": " ++ failDetail s d))
          else
            .again (.obj s)

/-- The poll loop (src/server.js lines 102-153), by recursion on the
remaining attempts.  `i` is the index of the next poll, `last` is
`lastStatusResp`.  Returns the terminal result together with the
number of status-query calls issued.  Fuel exhaustion is the 504
timeout response (lines 156-160). -/
def pollLoop (polls : Nat → QueryResp) (jobId imageUrl : String) :
    Nat → Nat → Option PollBody → EnhanceResult × Nat
  | _, 0, last =>
    (.timeout jobId (lastDiag last), 0)
  | i, fuel + 1, _ =>
    match pollStep jobId imageUrl (polls i) with
    | .done r => (r, 1)
    | .again b =>
      let rest := pollLoop polls jobId imageUrl (i + 1) fuel (some b)
      (rest.1, rest.2 + 1)

/-- The `/enhance-photo` handler (src/server.js lines 86-166) as a
pure function of the API key, the inbound request, and the upstream
environment. -/
def enhancePhoto (apiKey : Option String) (req : EnhanceRequest) (up : Upstream) :
    RunOutcome :=
  if jsTruthyStr req.image_url = false then
    ⟨.inputError, 0, 0⟩
  else if jsTruthyStr apiKey = false then
    ⟨.configError, 0, 0⟩
  else
    match createEnhanceJob up.create with
    | .error e => ⟨.upstream e, 1, 0⟩
    | .ok jobId =>
      let p := pollLoop up.polls jobId (req.image_url.getD "") 0 maxAttempts none
      ⟨p.1, 1, p.2⟩

/-! ### Concrete upstream environments used to exercise the model -/

/-- A create-job response that succeeds with job id `job1`. -/
def createOkResp : CreateResp :=
  { ok := true, status := 200, text := "create-ok",
    parsed := some { code := some 200, message := none,
                     data := some { job_id := some "job1" } } }

/-- A create-job response whose body carries application code 400. -/
def createFailResp : CreateResp :=
  { ok := true, status := 200, text := "create-fail",
    parsed := some { code := some 400, message := some "bad request", data := none } }

/-- A status `data` object still in progress. -/
def pendingData : StatusData :=
  { status := some "PENDING", res_url := none, enhanced_url := none,
    result_url := none, original_url := none, error_message := none,
    fail_reason := none, detail := none }

/-- A parsed pending status body with success code. -/
def pendingResp : StatusResp :=
  { code := some 200, message := none, data := some pendingData }

/-- A status-query response carrying `pendingResp`. -/
def pendingQuery : QueryResp :=
  { ok := true, status := 200, text := "pending", parsed := some (.obj pendingResp) }

/-- A completed status `data` object with `res_url` populated. -/
def completedData : StatusData :=
  { status := some "COMPLETED", res_url := some "http://res.jpg",
    enhanced_url := none, result_url := none,
    original_url := some "http://orig.jpg", error_message := none,
    fail_reason := none, detail := none }

/-- A status-query response carrying a completed body. -/
def completedQuery : QueryResp :=
  { ok := true, status := 200, text := "completed",
    parsed := some (.obj { code := some 200, message := none, data := some completedData }) }

/-- A completed status `data` object with no result-URL field at all. -/
def completedNoUrlData : StatusData :=
  { status := some "COMPLETED", res_url := none, enhanced_url := none,
    result_url := none, original_url := none, error_message := none,
    fail_reason := none, detail := none }

/-- A status-query response carrying a completed body without URL. -/
def completedNoUrlQuery : QueryResp :=
  { ok := true, status := 200, text := "completed-nourl",
    parsed := some (.obj { code := some 200, message := none, data := some completedNoUrlData }) }

/-- A failed status `data` object with `error_message` populated. -/
def failedData : StatusData :=
  { status := some "FAILED", res_url := none, enhanced_url := none,
    result_url := none, original_url := none, error_message := some "face too small",
    fail_reason := none, detail := none }

/-- A status-query response carrying a failed body. -/
def failedQuery : QueryResp :=
  { ok := true, status := 200, text := "failed",
    parsed := some (.obj { code := some 200, message := none, data := some failedData }) }

/-- A parsed body carrying application code `0` — distinct from the
success code 200 but falsy in JavaScript — and a pending status. -/
def codeZeroResp : StatusResp :=
  { code := some 0, message := some "zero", data := some pendingData }

/-- A status-query response carrying `codeZeroResp`. -/
def codeZeroQuery : QueryResp :=
  { ok := true, status := 200, text := "code-zero", parsed := some (.obj codeZeroResp) }

/-- A parsed body carrying the truthy application error code 500. -/
def code500Resp : StatusResp :=
  { code := some 500, message := some "internal", data := some pendingData }

/-- A status-query response carrying `code500Resp`. -/
def code500Query : QueryResp :=
  { ok := true, status := 200, text := "code-500", parsed := some (.obj code500Resp) }

/-- Upstream where every poll reports COMPLETED with a result URL. -/
def upCompleted : Upstream := ⟨createOkResp, fun _ => completedQuery⟩

/-- Upstream where every poll reports PENDING. -/
def upPending : Upstream := ⟨createOkResp, fun _ => pendingQuery⟩

/-- Upstream where every poll reports FAILED. -/
def upFailed : Upstream := ⟨createOkResp, fun _ => failedQuery⟩

/-- Upstream where every poll carries application code 0 and PENDING. -/
def upCodeZero : Upstream := ⟨createOkResp, fun _ => codeZeroQuery⟩

/-- Upstream where every poll carries application code 500. -/
def upCode500 : Upstream := ⟨createOkResp, fun _ => code500Query⟩

/-- Upstream whose create-job call fails at the application level. -/
def upCreateFail : Upstream := ⟨createFailResp, fun _ => pendingQuery⟩

/-- Upstream where every poll reports COMPLETED without any URL. -/
def upCompletedNoUrl : Upstream := ⟨createOkResp, fun _ => completedNoUrlQuery⟩

/-- A status-query response whose body text is `0`: HTTP 200, valid
JSON, parsing to the falsy number 0. -/
def primZeroQuery : QueryResp :=
  { ok := true, status := 200, text := "0", parsed := some (.prim false "0") }

/-- Upstream where every poll body parses to the falsy number 0. -/
def upPrimZero : Upstream := ⟨createOkResp, fun _ => primZeroQuery⟩

/-! ### Loop lemmas -/

lemma queryEnhanceResult_ok (q : QueryResp) (b : PollBody)
    (h1 : q.ok = true) (h2 : q.parsed = some b) :
    queryEnhanceResult q = .ok b := by
  simp [queryEnhanceResult, h1, h2]

lemma queryEnhanceResult_ok_inv (q : QueryResp) (b : PollBody)
    (h : queryEnhanceResult q = .ok b) : q.parsed = some b := by
  rcases hp : q.parsed with _ | b'
  · rw [queryEnhanceResult, hp] at h
    by_cases hok : q.ok = false
    · rw [if_pos hok] at h
      exact Except.noConfusion h
    · rw [if_neg hok] at h
      exact Except.noConfusion h
  · rw [queryEnhanceResult, hp] at h
    by_cases hok : q.ok = false
    · rw [if_pos hok] at h
      exact Except.noConfusion h
    · rw [if_neg hok] at h
      simp at h
      rw [h]

lemma continuesPolling_elim (q : QueryResp) (h : continuesPolling q = true) :
    q.ok = true ∧ ∃ b, q.parsed = some b ∧ bodyContinues b = true := by
  unfold continuesPolling at h
  rcases hp : q.parsed with _ | b
  · rw [hp] at h
    simp at h
  · rw [hp] at h
    simp only [Bool.and_eq_true] at h
    exact ⟨h.1, b, rfl, h.2⟩

lemma nonTerminal_elim (s : StatusResp) (d : StatusData)
    (hd : s.data = some d) (h : nonTerminal s = true) :
    d.status ≠ some "COMPLETED" ∧ d.status ≠ some "FAILED" ∧ d.status ≠ some "ERROR" := by
  unfold nonTerminal statusOf at h
  rw [hd] at h
  simp only [Option.bind_some, Bool.and_eq_true, bne_iff_ne, ne_eq] at h
  exact ⟨h.1, h.2.1, h.2.2⟩

/-- A continuing response makes the loop body produce `again` with the
parsed body as the new snapshot. -/
lemma pollStep_again (jobId imageUrl : String) (q : QueryResp) (b : PollBody)
    (hp : q.parsed = some b) (h : continuesPolling q = true) :
    pollStep jobId imageUrl q = .again b := by
  obtain ⟨hok, b', hp', hbc⟩ := continuesPolling_elim _ h
  rw [hp] at hp'
  cases hp'
  rw [pollStep, queryEnhanceResult_ok _ _ hok hp]
  cases b with
  | nullBody => simp [bodyContinues] at hbc
  | prim t ser => simp
  | obj s =>
    simp only [bodyContinues, Bool.and_eq_true, Bool.not_eq_true'] at hbc
    obtain ⟨hcode, hnt⟩ := hbc
    rcases hd : s.data with _ | d
    · simp [hcode, hd]
    · obtain ⟨h1, h2, h3⟩ := nonTerminal_elim s d hd hnt
      simp [hcode, hd, h1, h2, h3]

/-- One iteration of the poll loop on a response that keeps the loop
going: the outcome is that of the remaining loop, shifted one poll
index, with the parsed response as the new `lastStatusResp`, and one
more query counted. -/
lemma pollLoop_skip (polls : Nat → QueryResp) (jobId imageUrl : String)
    (i fuel : Nat) (last : Option PollBody) (b : PollBody)
    (hp : (polls i).parsed = some b)
    (h : continuesPolling (polls i) = true) :
    pollLoop polls jobId imageUrl i (fuel + 1) last =
      ((pollLoop polls jobId imageUrl (i + 1) fuel (some b)).1,
       (pollLoop polls jobId imageUrl (i + 1) fuel (some b)).2 + 1) := by
  rw [pollLoop, pollStep_again jobId imageUrl (polls i) b hp h]

/-- Iterated form of `pollLoop_skip`: `n` consecutive continuing
responses are consumed, adding `n` to the query count; for `n > 0` the
retained snapshot is the parse of the last consumed response. -/
lemma pollLoop_skipN (polls : Nat → QueryResp) (jobId imageUrl : String) :
    ∀ (n i fuel : Nat) (last : Option PollBody),
      (∀ k, k < n → continuesPolling (polls (i + k)) = true) → n ≤ fuel →
      pollLoop polls jobId imageUrl i fuel last =
        ((pollLoop polls jobId imageUrl (i + n) (fuel - n)
            (if n = 0 then last else (polls (i + n - 1)).parsed)).1,
         (pollLoop polls jobId imageUrl (i + n) (fuel - n)
            (if n = 0 then last else (polls (i + n - 1)).parsed)).2 + n) := by
  intro n
  induction n with
  | zero => intro i fuel last _ _; simp
  | succ n ih =>
    intro i fuel last hcont hle
    obtain ⟨fuel', rfl⟩ : ∃ f, fuel = f + 1 :=
      ⟨fuel - 1, by omega⟩
    have h0 : continuesPolling (polls i) = true := by
      have := hcont 0 (by omega)
      simpa using this
    obtain ⟨hok, b, hp, -⟩ := continuesPolling_elim _ h0
    rw [pollLoop_skip polls jobId imageUrl i fuel' last b hp h0]
    rw [ih (i + 1) fuel' (some b)
      (fun k hk => by
        have := hcont (k + 1) (by omega)
        simpa [Nat.add_assoc, Nat.add_comm 1 k] using this)
      (by omega)]
    rcases n with _ | m
    · simp [hp]
    · have e1 : i + 1 + (m + 1) = i + (m + 1 + 1) := by omega
      have e2 : fuel' - (m + 1) = fuel' + 1 - (m + 1 + 1) := by omega
      have e3 : i + 1 + (m + 1) - 1 = i + (m + 1 + 1) - 1 := by omega
      rw [e3, e1, e2, Nat.add_assoc]
      have hm1 : ¬ (m + 1 = 0) := by omega
      have hm2 : ¬ (m + (1 + 1) = 0) := by omega
      simp only [hm1, hm2, if_false, Nat.add_assoc]

/-- The loop issues at most `fuel` status queries. -/
lemma pollLoop_count_le (polls : Nat → QueryResp) (jobId imageUrl : String) :
    ∀ (fuel i : Nat) (last : Option PollBody),
      (pollLoop polls jobId imageUrl i fuel last).2 ≤ fuel := by
  intro fuel
  induction fuel with
  | zero => intro i last; simp [pollLoop]
  | succ n ih =>
    intro i last
    rw [pollLoop]
    cases hstep : pollStep jobId imageUrl (polls i) with
    | done r => simp
    | again b =>
      have := ih (i + 1) (some b)
      simp only []
      omega

/-- The loop body on a response whose parsed code field is truthy and
distinct from 200: the check on src/server.js line 109 throws. -/
lemma pollStep_codeErr (jobId imageUrl : String) (q : QueryResp) (s : StatusResp)
    (hok : q.ok = true) (hp : q.parsed = some (.obj s)) (hcode : codeErr s = true) :
    pollStep jobId imageUrl q =
      .done (.upstream ("HitPaw status api failed: code=" ++ jsShowInt s.code
        ++ ", message=" ++ jsShowStr s.message)) := by
  rw [pollStep, queryEnhanceResult_ok _ _ hok hp]
  simp [hcode]

/-- The loop body on a COMPLETED response: success when one of the
candidate URL fields is populated, a thrown error otherwise
(src/server.js lines 118-138). -/
lemma pollStep_completed (jobId imageUrl : String) (q : QueryResp)
    (s : StatusResp) (d : StatusData)
    (hok : q.ok = true) (hp : q.parsed = some (.obj s)) (hcode : codeErr s = false)
    (hd : s.data = some d) (hst : d.status = some "COMPLETED") :
    pollStep jobId imageUrl q =
      (if jsTruthyStr (jsOr d.res_url (jsOr d.enhanced_url d.result_url)) = true then
        .done (.success jobId "COMPLETED"
          ((jsOr d.res_url (jsOr d.enhanced_url d.result_url)).getD "")
          ((jsOr d.original_url (some imageUrl)).getD ""))
      else
        .done (.upstream ("COMPLETED but missing enhanced url. data="
          ++ (serializeStatusData d).take 300))) := by
  rw [pollStep, queryEnhanceResult_ok _ _ hok hp]
  simp [hcode, hd, hst]

/-- The loop body on a FAILED or ERROR response: a thrown error built
from the extracted detail (src/server.js lines 141-150). -/
lemma pollStep_failed (jobId imageUrl : String) (q : QueryResp)
    (s : StatusResp) (d : StatusData)
    (hok : q.ok = true) (hp : q.parsed = some (.obj s)) (hcode : codeErr s = false)
    (hd : s.data = some d)
    (hst : d.status = some "FAILED" ∨ d.status = some "ERROR") :
    pollStep jobId imageUrl q =
      .done (.upstream ("HitPaw task " ++ jsShowStr d.status ++ ": " ++ failDetail s d)) := by
  rw [pollStep, queryEnhanceResult_ok _ _ hok hp]
  have h1 : d.status ≠ some "COMPLETED" := by
    rcases hst with h | h <;> simp [h]
  rcases hst with h | h <;> simp [hcode, hd, h1, h]

/-- One terminal iteration resolves the loop with a query count of 1. -/
lemma pollLoop_done (polls : Nat → QueryResp) (jobId imageUrl : String)
    (i fuel : Nat) (last : Option PollBody) (r : EnhanceResult)
    (h : pollStep jobId imageUrl (polls i) = .done r) :
    pollLoop polls jobId imageUrl i (fuel + 1) last = (r, 1) := by
  rw [pollLoop, h]

/-- The loop resolves with result `r` after exactly `n + 1` queries
when the first `n` responses keep it going and the `(n+1)`-st is
terminal. -/
lemma pollLoop_reach_done (polls : Nat → QueryResp) (jobId imageUrl : String)
    (n fuel : Nat) (last : Option PollBody) (r : EnhanceResult)
    (hn : n < fuel)
    (hpre : ∀ k, k < n → continuesPolling (polls k) = true)
    (h : pollStep jobId imageUrl (polls n) = .done r) :
    pollLoop polls jobId imageUrl 0 fuel last = (r, n + 1) := by
  rw [pollLoop_skipN polls jobId imageUrl n 0 fuel last
    (fun k hk => by simpa using hpre k hk) (by omega)]
  obtain ⟨m, hm⟩ : ∃ m, fuel - n = m + 1 := ⟨fuel - n - 1, by omega⟩
  rw [show (0 : Nat) + n = n from by omega, hm,
    pollLoop_done polls jobId imageUrl n m _ r h]
  simp [Nat.add_comm]

/-- The loop exhausts its budget when every response keeps it going,
returning the 504 payload built from the last parsed snapshot and a
query count equal to the whole budget. -/
lemma pollLoop_all_pending (polls : Nat → QueryResp) (jobId imageUrl : String)
    (fuel : Nat) (hfuel : 0 < fuel) (b : PollBody)
    (hb : (polls (fuel - 1)).parsed = some b)
    (hpre : ∀ k, k < fuel → continuesPolling (polls k) = true) :
    pollLoop polls jobId imageUrl 0 fuel none =
      (.timeout jobId (lastDiag (some b)), fuel) := by
  rw [pollLoop_skipN polls jobId imageUrl fuel 0 fuel none
    (fun k hk => by simpa using hpre k hk) (by omega)]
  rw [show (0 : Nat) + fuel = fuel from by omega, Nat.sub_self]
  rw [if_neg (by omega : ¬ fuel = 0)]
  rw [hb]
  simp [pollLoop]

/-- The handler under a truthy image URL, a truthy API key and a
successful job creation is the poll loop, with one create call
counted. -/
lemma enhancePhoto_ok (key : Option String) (req : EnhanceRequest) (up : Upstream)
    (jobId : String)
    (hkey : jsTruthyStr key = true)
    (himg : jsTruthyStr req.image_url = true)
    (hcreate : createEnhanceJob up.create = .ok jobId) :
    enhancePhoto key req up =
      ⟨(pollLoop up.polls jobId (req.image_url.getD "") 0 maxAttempts none).1, 1,
       (pollLoop up.polls jobId (req.image_url.getD "") 0 maxAttempts none).2⟩ := by
  unfold enhancePhoto
  rw [himg, hkey, hcreate]
  simp

/-- The loop body never resolves to the 504 timeout result: the
timeout response is issued only after the loop (src/server.js
line 156). -/
lemma pollStep_done_not_timeout (jobId imageUrl : String) (q : QueryResp)
    (r : EnhanceResult) (h : pollStep jobId imageUrl q = .done r) :
    ∀ a b, r ≠ EnhanceResult.timeout a b := by
  intro a b hr
  subst hr
  unfold pollStep at h
  repeat' split at h
  all_goals try simp_all
  all_goals exact absurd h (by split <;> simp)

/-- The loop body continues only with the response body it parsed:
the `again` payload is exactly `q.parsed`. -/
lemma pollStep_again_parsed (jobId imageUrl : String) (q : QueryResp) (b : PollBody)
    (h : pollStep jobId imageUrl q = .again b) : q.parsed = some b := by
  cases hq : queryEnhanceResult q with
  | error e =>
    rw [pollStep, hq] at h
    simp at h
  | ok b' =>
    rw [pollStep, hq] at h
    have hp := queryEnhanceResult_ok_inv q b' hq
    cases b' with
    | nullBody => simp at h
    | prim t ser =>
      simp at h
      rw [hp, h]
    | obj s =>
      by_cases hc : codeErr s = true
      · simp [hc] at h
      · rcases hd : s.data with _ | d
        · simp [hc, hd] at h
          rw [hp, h]
        · by_cases h1 : d.status = some "COMPLETED"
          · by_cases h2 : jsTruthyStr (jsOr d.res_url (jsOr d.enhanced_url d.result_url)) = true
            · simp [hc, hd, h1, h2] at h
            · simp [hc, hd, h1, h2] at h
          · by_cases h2 : d.status = some "FAILED" ∨ d.status = some "ERROR"
            · rcases h2 with h2 | h2 <;> simp [hc, hd, h1, h2] at h
            · push_neg at h2
              simp [hc, hd, h1, h2.1, h2.2] at h
              rw [hp, h]

/-- Whenever the loop resolves to the timeout result, starting from a
positive budget or an already-stored truthy snapshot, and every parsed
poll body is truthy, the reported `last` diagnostic is populated. -/
lemma pollLoop_timeout_isSome (polls : Nat → QueryResp) (jobId imageUrl : String)
    (hbodies : ∀ k b, (polls k).parsed = some b → jsTruthyBody b = true) :
    ∀ (fuel i : Nat) (last : Option PollBody) (j : String) (l : Option String),
      (0 < fuel ∨ (∃ b, last = some b ∧ jsTruthyBody b = true)) →
      (pollLoop polls jobId imageUrl i fuel last).1 = .timeout j l →
      l.isSome = true := by
  intro fuel
  induction fuel with
  | zero =>
    intro i last j l h hl
    rcases h with h | ⟨b, rfl, hb⟩
    · omega
    · simp [pollLoop, lastDiag, hb] at hl
      rw [← hl.2]
      simp
  | succ n ih =>
    intro i last j l h hl
    rw [pollLoop] at hl
    cases hstep : pollStep jobId imageUrl (polls i) with
    | done r =>
      rw [hstep] at hl
      simp at hl
      exact absurd hl (pollStep_done_not_timeout jobId imageUrl (polls i) r hstep j l)
    | again b =>
      rw [hstep] at hl
      simp only [] at hl
      have hp := pollStep_again_parsed jobId imageUrl (polls i) b hstep
      exact ih (i + 1) (some b) j l (Or.inr ⟨b, rfl, hbodies i b hp⟩) hl

/-! ### Claims -/

/-- Claim C1: when the first `n` status-query responses keep the loop
going and the `(n+1)`-st (with `n+1` at most the attempt budget)
parses as JSON, passes the application-code check, and carries status
COMPLETED with a populated enhanced-URL field (the first populated of
`res_url`, `enhanced_url`, `result_url`), the orchestrator returns the
success result carrying that URL as `enhanced_url` and issues exactly
`n + 1` status-query calls — no polling past the `(n+1)`-st. -/
theorem c1_nth_completed_returns_success
    (key : Option String) (hkey : jsTruthyStr key = true)
    (iurl : String) (hiurl : iurl ≠ "")
    (up : Upstream) (jobId : String)
    (hcreate : createEnhanceJob up.create = .ok jobId)
    (n : Nat) (hn : n < maxAttempts)
    (hpre : ∀ k, k < n → continuesPolling (up.polls k) = true)
    (s : StatusResp) (d : StatusData)
    (hok : (up.polls n).ok = true)
    (hp : (up.polls n).parsed = some (.obj s))
    (hcode : codeErr s = false)
    (hd : s.data = some d)
    (hst : d.status = some "COMPLETED")
    (hurl : jsTruthyStr (jsOr d.res_url (jsOr d.enhanced_url d.result_url)) = true) :
    enhancePhoto key ⟨some iurl⟩ up =
      ⟨.success jobId "COMPLETED"
          ((jsOr d.res_url (jsOr d.enhanced_url d.result_url)).getD "")
          ((jsOr d.original_url (some iurl)).getD ""),
        1, n + 1⟩ := by
  rw [enhancePhoto_ok key ⟨some iurl⟩ up jobId hkey (by simp [jsTruthyStr, hiurl]) hcreate]
  have hgetD : (EnhanceRequest.mk (some iurl)).image_url.getD "" = iurl := rfl
  rw [hgetD]
  have hstep := pollStep_completed jobId iurl (up.polls n) s d hok hp hcode hd hst
  rw [if_pos hurl] at hstep
  rw [pollLoop_reach_done up.polls jobId iurl n maxAttempts none _ hn hpre hstep]

/-- Witness for C1 at a concrete input: upstream completes on the
first poll with `res_url` populated. -/
theorem c1_nth_completed_returns_success_witness :
    enhancePhoto (some "k") ⟨some "http://in.jpg"⟩ upCompleted =
      ⟨.success "job1" "COMPLETED" "http://res.jpg" "http://orig.jpg", 1, 0 + 1⟩ :=
  c1_nth_completed_returns_success (some "k") (by decide) "http://in.jpg" (by decide)
    upCompleted "job1" rfl 0 (by decide)
    (fun k hk => absurd hk (Nat.not_lt_zero k))
    { code := some 200, message := none, data := some completedData } completedData
    rfl rfl (by decide) rfl rfl (by decide)

/-- Claim C2: when every status-query response within the attempt
budget keeps the loop going (parses as JSON, passes the code check,
non-terminal status), the orchestrator issues exactly `maxAttempts`
status-query calls and returns the 504 timeout result carrying the job
identifier and the 800-character-bounded serialization of the last
parsed snapshot. -/
theorem c2_all_pending_times_out
    (key : Option String) (hkey : jsTruthyStr key = true)
    (iurl : String) (hiurl : iurl ≠ "")
    (up : Upstream) (jobId : String)
    (hcreate : createEnhanceJob up.create = .ok jobId)
    (hpre : ∀ k, k < maxAttempts → continuesPolling (up.polls k) = true)
    (s : StatusResp) (hs : (up.polls (maxAttempts - 1)).parsed = some (.obj s)) :
    enhancePhoto key ⟨some iurl⟩ up =
      ⟨.timeout jobId (some ((serializeStatusResp s).take 800)), 1, maxAttempts⟩ := by
  rw [enhancePhoto_ok key ⟨some iurl⟩ up jobId hkey (by simp [jsTruthyStr, hiurl]) hcreate]
  have hgetD : (EnhanceRequest.mk (some iurl)).image_url.getD "" = iurl := rfl
  rw [hgetD]
  rw [pollLoop_all_pending up.polls jobId iurl maxAttempts (by norm_num [maxAttempts])
    (.obj s) hs hpre]
  simp [lastDiag, jsTruthyBody, serializeBody]

/-- Witness for C2 at a concrete input: upstream reports PENDING on
every poll. -/
theorem c2_all_pending_times_out_witness :
    enhancePhoto (some "k") ⟨some "http://in.jpg"⟩ upPending =
      ⟨.timeout "job1" (some ((serializeStatusResp pendingResp).take 800)), 1, maxAttempts⟩ :=
  c2_all_pending_times_out (some "k") (by decide) "http://in.jpg" (by decide)
    upPending "job1" rfl (fun k _ => rfl) pendingResp rfl

/-- Claim C3: when the `(n+1)`-st status-query response carries status
FAILED or ERROR (having passed the JSON and code checks), the
orchestrator resolves to the failure result whose message embeds the
reason extracted as the first populated of `error_message`,
`fail_reason`, `detail`, top-level `message`, defaulting to the
generic task-failed string, and it stops after exactly `n + 1`
status-query calls. -/
theorem c3_failed_stops_with_reason
    (key : Option String) (hkey : jsTruthyStr key = true)
    (iurl : String) (hiurl : iurl ≠ "")
    (up : Upstream) (jobId : String)
    (hcreate : createEnhanceJob up.create = .ok jobId)
    (n : Nat) (hn : n < maxAttempts)
    (hpre : ∀ k, k < n → continuesPolling (up.polls k) = true)
    (s : StatusResp) (d : StatusData)
    (hok : (up.polls n).ok = true)
    (hp : (up.polls n).parsed = some (.obj s))
    (hcode : codeErr s = false)
    (hd : s.data = some d)
    (hst : d.status = some "FAILED" ∨ d.status = some "ERROR") :
    enhancePhoto key ⟨some iurl⟩ up =
      ⟨.upstream ("HitPaw task " ++ jsShowStr d.status ++ ": " ++ failDetail s d),
        1, n + 1⟩ := by
  rw [enhancePhoto_ok key ⟨some iurl⟩ up jobId hkey (by simp [jsTruthyStr, hiurl]) hcreate]
  have hgetD : (EnhanceRequest.mk (some iurl)).image_url.getD "" = iurl := rfl
  rw [hgetD]
  have hstep := pollStep_failed jobId iurl (up.polls n) s d hok hp hcode hd hst
  rw [pollLoop_reach_done up.polls jobId iurl n maxAttempts none _ hn hpre hstep]

/-- Witness for C3 at a concrete input: upstream reports FAILED with
`error_message` populated on the first poll. -/
theorem c3_failed_stops_with_reason_witness :
    enhancePhoto (some "k") ⟨some "http://in.jpg"⟩ upFailed =
      ⟨.upstream "HitPaw task FAILED: face too small", 1, 0 + 1⟩ :=
  c3_failed_stops_with_reason (some "k") (by decide) "http://in.jpg" (by decide)
    upFailed "job1" rfl 0 (by decide)
    (fun k hk => absurd hk (Nat.not_lt_zero k))
    { code := some 200, message := none, data := some failedData } failedData
    rfl rfl (by decide) rfl (Or.inl rfl)

/-- Claim C4 counterexample: a parsed poll response carrying the
application-level code `0` — distinct from the success code 200, yet
falsy in JavaScript — does not terminate polling: the guard
`statusResp.code && statusResp.code !== 200` skips it, the loop runs
the full 20-attempt budget and returns the timeout result instead of
an immediate failure. -/
theorem c4_code_zero_counterexample :
    codeZeroResp.code = some 0 ∧ some (0 : Int) ≠ some (200 : Int)
      ∧ (upCodeZero.polls 0).ok = true
      ∧ (upCodeZero.polls 0).parsed = some (.obj codeZeroResp)
      ∧ (enhancePhoto (some "k") ⟨some "http://in.jpg"⟩ upCodeZero).queryCalls = 20
      ∧ (enhancePhoto (some "k") ⟨some "http://in.jpg"⟩ upCodeZero).result =
          .timeout "job1" (some ((serializeStatusResp codeZeroResp).take 800)) := by
  have hrun : enhancePhoto (some "k") ⟨some "http://in.jpg"⟩ upCodeZero =
      ⟨.timeout "job1" (some ((serializeStatusResp codeZeroResp).take 800)), 1, maxAttempts⟩ := by
    rw [enhancePhoto_ok (some "k") ⟨some "http://in.jpg"⟩ upCodeZero "job1"
      (by decide) (by decide) rfl]
    rw [show (EnhanceRequest.mk (some "http://in.jpg")).image_url.getD "" =
      "http://in.jpg" from rfl]
    rw [pollLoop_all_pending upCodeZero.polls "job1" "http://in.jpg" maxAttempts
      (by norm_num [maxAttempts]) (.obj codeZeroResp) rfl (fun k _ => rfl)]
    simp [lastDiag, jsTruthyBody, serializeBody]
  refine ⟨rfl, by decide, rfl, rfl, ?_, ?_⟩
  · rw [hrun]
    rfl
  · rw [hrun]

/-- Claim C4 as amended: for a parsed poll response whose
application-level code is truthy (non-zero) and distinct from 200, the
orchestrator terminates polling immediately with the failure built
from the embedded code and message, regardless of any status field in
the body. -/
theorem c4_truthy_error_code_stops
    (key : Option String) (hkey : jsTruthyStr key = true)
    (iurl : String) (hiurl : iurl ≠ "")
    (up : Upstream) (jobId : String)
    (hcreate : createEnhanceJob up.create = .ok jobId)
    (n : Nat) (hn : n < maxAttempts)
    (hpre : ∀ k, k < n → continuesPolling (up.polls k) = true)
    (s : StatusResp) (c : Int)
    (hok : (up.polls n).ok = true)
    (hp : (up.polls n).parsed = some (.obj s))
    (hc : s.code = some c) (hc0 : c ≠ 0) (hc200 : c ≠ 200) :
    enhancePhoto key ⟨some iurl⟩ up =
      ⟨.upstream ("HitPaw status api failed: code=" ++ jsShowInt s.code
          ++ ", message=" ++ jsShowStr s.message),
        1, n + 1⟩ := by
  rw [enhancePhoto_ok key ⟨some iurl⟩ up jobId hkey (by simp [jsTruthyStr, hiurl]) hcreate]
  have hgetD : (EnhanceRequest.mk (some iurl)).image_url.getD "" = iurl := rfl
  rw [hgetD]
  have hcode : codeErr s = true := by simp [codeErr, hc, hc0, hc200]
  have hstep := pollStep_codeErr jobId iurl (up.polls n) s hok hp hcode
  rw [pollLoop_reach_done up.polls jobId iurl n maxAttempts none _ hn hpre hstep]

/-- Witness for the amended C4 at a concrete input: the first poll
carries code 500 and a pending status, and the run stops at once. -/
theorem c4_truthy_error_code_stops_witness :
    enhancePhoto (some "k") ⟨some "http://in.jpg"⟩ upCode500 =
      ⟨.upstream "HitPaw status api failed: code=500, message=internal", 1, 0 + 1⟩ :=
  c4_truthy_error_code_stops (some "k") (by decide) "http://in.jpg" (by decide)
    upCode500 "job1" rfl 0 (by decide)
    (fun k hk => absurd hk (Nat.not_lt_zero k))
    code500Resp 500 rfl rfl rfl (by decide) (by decide)

/-- Claim C5: when the create-job response parses with an
application-level code distinct from the success code 200, the
orchestrator resolves to the create-failure result having issued the
single create call and zero status-query calls. -/
theorem c5_create_fail_zero_polls
    (key : Option String) (hkey : jsTruthyStr key = true)
    (iurl : String) (hiurl : iurl ≠ "")
    (up : Upstream) (body : CreateBody)
    (hok : up.create.ok = true)
    (hp : up.create.parsed = some body)
    (hcode : body.code ≠ some 200) :
    enhancePhoto key ⟨some iurl⟩ up =
      ⟨.upstream ("HitPaw create job failed: code=" ++ jsShowInt body.code
          ++ ", message=" ++ jsShowStr body.message),
        1, 0⟩ := by
  have hcr : createEnhanceJob up.create =
      .error ("HitPaw create job failed: code=" ++ jsShowInt body.code
        ++ ", message=" ++ jsShowStr body.message) := by
    rw [createEnhanceJob]
    simp [hok, hp, hcode]
  unfold enhancePhoto
  rw [show jsTruthyStr (EnhanceRequest.mk (some iurl)).image_url = true from
    by simp [jsTruthyStr, hiurl], hkey, hcr]
  simp

/-- Witness for C5 at a concrete input: the create-job body carries
code 400, no status query is ever issued. -/
theorem c5_create_fail_zero_polls_witness :
    enhancePhoto (some "k") ⟨some "http://in.jpg"⟩ upCreateFail =
      ⟨.upstream "HitPaw create job failed: code=400, message=bad request", 1, 0⟩ :=
  c5_create_fail_zero_polls (some "k") (by decide) "http://in.jpg" (by decide)
    upCreateFail { code := some 400, message := some "bad request", data := none }
    rfl rfl (by decide)

/-- Claim C6: on a COMPLETED poll response, the enhanced URL is the
first populated of `res_url`, `enhanced_url`, `result_url` and the
original URL is `original_url` falling back to the caller's input URL;
when no candidate URL is populated the run resolves to the
missing-enhanced-url failure rather than success. -/
theorem c6_completed_url_extraction
    (key : Option String) (hkey : jsTruthyStr key = true)
    (iurl : String) (hiurl : iurl ≠ "")
    (up : Upstream) (jobId : String)
    (hcreate : createEnhanceJob up.create = .ok jobId)
    (n : Nat) (hn : n < maxAttempts)
    (hpre : ∀ k, k < n → continuesPolling (up.polls k) = true)
    (s : StatusResp) (d : StatusData)
    (hok : (up.polls n).ok = true)
    (hp : (up.polls n).parsed = some (.obj s))
    (hcode : codeErr s = false)
    (hd : s.data = some d)
    (hst : d.status = some "COMPLETED") :
    enhancePhoto key ⟨some iurl⟩ up =
      ⟨if jsTruthyStr (jsOr d.res_url (jsOr d.enhanced_url d.result_url)) = true then
          .success jobId "COMPLETED"
            ((jsOr d.res_url (jsOr d.enhanced_url d.result_url)).getD "")
            ((jsOr d.original_url (some iurl)).getD "")
        else
          .upstream ("COMPLETED but missing enhanced url. data="
            ++ (serializeStatusData d).take 300),
        1, n + 1⟩ := by
  rw [enhancePhoto_ok key ⟨some iurl⟩ up jobId hkey (by simp [jsTruthyStr, hiurl]) hcreate]
  have hgetD : (EnhanceRequest.mk (some iurl)).image_url.getD "" = iurl := rfl
  rw [hgetD]
  have hstep := pollStep_completed jobId iurl (up.polls n) s d hok hp hcode hd hst
  rw [← apply_ite StepOut.done] at hstep
  rw [pollLoop_reach_done up.polls jobId iurl n maxAttempts none _ hn hpre hstep]

/-- Witness for C6 at a concrete input: COMPLETED with every candidate
URL field absent resolves to the missing-enhanced-url failure. -/
theorem c6_completed_url_extraction_witness :
    enhancePhoto (some "k") ⟨some "http://in.jpg"⟩ upCompletedNoUrl =
      ⟨.upstream ("COMPLETED but missing enhanced url. data="
          ++ (serializeStatusData completedNoUrlData).take 300),
        1, 0 + 1⟩ :=
  c6_completed_url_extraction (some "k") (by decide) "http://in.jpg" (by decide)
    upCompletedNoUrl "job1" rfl 0 (by decide)
    (fun k hk => absurd hk (Nat.not_lt_zero k))
    { code := some 200, message := none, data := some completedNoUrlData }
    completedNoUrlData rfl rfl (by decide) rfl rfl

/-- Claim C7: a request whose `image_url` is missing or empty (falsy)
resolves to the 400 input-error response with zero create-job calls
and zero status-query calls. -/
theorem c7_missing_image_url_no_calls
    (key : Option String) (req : EnhanceRequest) (up : Upstream)
    (himg : jsTruthyStr req.image_url = false) :
    enhancePhoto key req up = ⟨.inputError, 0, 0⟩ := by
  unfold enhancePhoto
  rw [himg]
  simp

/-- Witness for C7 at concrete inputs: both an absent and an empty
`image_url` field yield the input error with no upstream calls. -/
theorem c7_missing_image_url_no_calls_witness :
    enhancePhoto (some "k") ⟨none⟩ upCompleted = ⟨.inputError, 0, 0⟩
      ∧ enhancePhoto (some "k") ⟨some ""⟩ upCompleted = ⟨.inputError, 0, 0⟩ :=
  ⟨c7_missing_image_url_no_calls (some "k") ⟨none⟩ upCompleted rfl,
   c7_missing_image_url_no_calls (some "k") ⟨some ""⟩ upCompleted (by decide)⟩

/-- Claim C8: on every request and every upstream environment, the
orchestrator issues at most one create-job call and at most
`maxAttempts` status-query calls. -/
theorem c8_call_budget_invariant (key : Option String) (req : EnhanceRequest)
    (up : Upstream) :
    (enhancePhoto key req up).createCalls ≤ 1
      ∧ (enhancePhoto key req up).queryCalls ≤ maxAttempts := by
  unfold enhancePhoto
  by_cases h1 : jsTruthyStr req.image_url = false
  · rw [if_pos h1]
    exact ⟨by simp, by simp [maxAttempts]⟩
  · rw [if_neg h1]
    by_cases h2 : jsTruthyStr key = false
    · rw [if_pos h2]
      exact ⟨by simp, by simp [maxAttempts]⟩
    · rw [if_neg h2]
      cases hc : createEnhanceJob up.create with
      | error e => exact ⟨by simp, by simp [maxAttempts]⟩
      | ok jobId =>
        refine ⟨by simp, ?_⟩
        simpa using
          pollLoop_count_le up.polls jobId (req.image_url.getD "") maxAttempts 0 none

/-- Claim C9: the orchestrator is deterministic — two runs against
equal API keys, equal requests and equal upstream response sequences
produce equal terminal results and equal call counts. -/
theorem c9_deterministic (key₁ key₂ : Option String) (req₁ req₂ : EnhanceRequest)
    (up₁ up₂ : Upstream)
    (hkey : key₁ = key₂) (hreq : req₁ = req₂) (hup : up₁ = up₂) :
    enhancePhoto key₁ req₁ up₁ = enhancePhoto key₂ req₂ up₂ := by
  rw [hkey, hreq, hup]

/-- Witness for C9 at a concrete input. -/
theorem c9_deterministic_witness :
    enhancePhoto (some "k") ⟨some "http://in.jpg"⟩ upCompleted =
      enhancePhoto (some "k") ⟨some "http://in.jpg"⟩ upCompleted :=
  c9_deterministic (some "k") (some "k") ⟨some "http://in.jpg"⟩ ⟨some "http://in.jpg"⟩
    upCompleted upCompleted rfl rfl rfl

/-- Claim C10 counterexample: a status-query response of HTTP 200
whose body text is `0` is valid JSON, so the iteration assigns the
falsy value 0 to `lastStatusResp` without throwing (property reads on
a number yield `undefined`: the code check is skipped and the status
is non-terminal).  After the full 20-attempt budget the run reaches
the timeout response with `lastStatusResp` falsy, so the `null` branch
of line 159 is taken: the diagnostic field is `null`, refuting the
original claim that it is a non-null string on every timeout. -/
theorem c10_falsy_body_counterexample :
    (upPrimZero.polls 0).ok = true
      ∧ (upPrimZero.polls 0).parsed = some (PollBody.prim false "0")
      ∧ (enhancePhoto (some "k") ⟨some "http://in.jpg"⟩ upPrimZero).result =
          .timeout "job1" none
      ∧ (enhancePhoto (some "k") ⟨some "http://in.jpg"⟩ upPrimZero).queryCalls = 20
      ∧ Option.isSome (none : Option String) = false := by
  have hrun : enhancePhoto (some "k") ⟨some "http://in.jpg"⟩ upPrimZero =
      ⟨.timeout "job1" none, 1, maxAttempts⟩ := by
    rw [enhancePhoto_ok (some "k") ⟨some "http://in.jpg"⟩ upPrimZero "job1"
      (by decide) (by decide) rfl]
    rw [show (EnhanceRequest.mk (some "http://in.jpg")).image_url.getD "" =
      "http://in.jpg" from rfl]
    rw [pollLoop_all_pending upPrimZero.polls "job1" "http://in.jpg" maxAttempts
      (by norm_num [maxAttempts]) (.prim false "0") rfl (fun k _ => rfl)]
    simp [lastDiag, jsTruthyBody]
  refine ⟨rfl, rfl, ?_, ?_, rfl⟩
  · rw [hrun]
  · rw [hrun]
    rfl

/-- Claim C10 as amended: whenever a run resolves to the 504 timeout
result and every parsed poll body is truthy (in particular every body
is a JSON object), the `last` diagnostic field is populated: the
attempt budget is positive and every completed iteration stores its
parsed snapshot.  The `null` branch of line 159 is reachable only when
the final stored body parses to a falsy JSON primitive (`0`, `false`
or `""`). -/
theorem c10_truthy_bodies_timeout_last_nonnull (key : Option String)
    (req : EnhanceRequest) (up : Upstream) (j : String) (l : Option String)
    (hbodies : ∀ k b, (up.polls k).parsed = some b → jsTruthyBody b = true)
    (h : (enhancePhoto key req up).result = .timeout j l) :
    l.isSome = true := by
  unfold enhancePhoto at h
  by_cases h1 : jsTruthyStr req.image_url = false
  · rw [if_pos h1] at h
    simp at h
  · rw [if_neg h1] at h
    by_cases h2 : jsTruthyStr key = false
    · rw [if_pos h2] at h
      simp at h
    · rw [if_neg h2] at h
      cases hc : createEnhanceJob up.create with
      | error e =>
        rw [hc] at h
        simp at h
      | ok jobId =>
        rw [hc] at h
        simp only [] at h
        exact pollLoop_timeout_isSome up.polls jobId (req.image_url.getD "") hbodies
          maxAttempts 0 none j l (Or.inl (by norm_num [maxAttempts])) h

/-- Witness for the amended C10 at a concrete input: the all-PENDING
run (every body a JSON object) times out with a populated snapshot. -/
theorem c10_truthy_bodies_timeout_last_nonnull_witness :
    (some ((serializeStatusResp pendingResp).take 800)).isSome = true :=
  c10_truthy_bodies_timeout_last_nonnull (some "k") ⟨some "http://in.jpg"⟩ upPending
    "job1" (some ((serializeStatusResp pendingResp).take 800))
    (fun k b hb => by
      have hb' : PollBody.obj pendingResp = b := Option.some.inj hb
      rw [← hb']
      rfl)
    (by
      rw [enhancePhoto_ok (some "k") ⟨some "http://in.jpg"⟩ upPending "job1"
        (by decide) (by decide) rfl]
      rw [show (EnhanceRequest.mk (some "http://in.jpg")).image_url.getD "" =
        "http://in.jpg" from rfl]
      rw [pollLoop_all_pending upPending.polls "job1" "http://in.jpg" maxAttempts
        (by norm_num [maxAttempts]) (.obj pendingResp) rfl (fun k _ => rfl)]
      simp [lastDiag, jsTruthyBody, serializeBody])

end HitPaw
